import Mathlib

/-!
# toynote: edit-note dialog and main-window session logic

A shallow embedding of `src/editnotedialog.cpp` and `src/mainwindow.cpp`.

* Qt strings are Lean strings; `QString::trimmed` and `QString::isEmpty` are
  written out on the character list.
* A modal dialog or file picker is an interaction with the user: the answers
  the user gives and the outcomes of file I/O during one command are collected
  in an `Env`; the command is a function of the `Env` and the window.
* Every interaction the code performs (message boxes, pickers, file writes and
  reads, emitted signals) is appended to a log that is kept beside the window
  state, so that "the picker is not consulted" is a statement about the log.
* Widget rendering (window title, enabled actions, the view binding) is not
  part of the session state and is not modelled.
-/

namespace Toynote

/-! ## Qt strings -/

/-- Embeds `QChar::isSpace`: U+0009..U+000D, U+0020, U+0085, U+00A0 and the characters
of the Unicode separator categories Zs, Zl, Zp. -/
def isSpace (c : Char) : Bool :=
  let u := c.toNat
  (9 ≤ u && u ≤ 13) || u == 32 || u == 133 || u == 160 || u == 5760 ||
  (8192 ≤ u && u ≤ 8202) || u == 8232 || u == 8233 || u == 8239 || u == 8287 ||
  u == 12288

/-- Embeds `QString::trimmed`: whitespace removed from the start and the end. -/
def trimmed (s : String) : String :=
  ⟨((s.data.dropWhile isSpace).reverse.dropWhile isSpace).reverse⟩

/-- Embeds `QString::isEmpty`. -/
def isEmpty (s : String) : Bool := decide (s = "")

/-! ## Note and Notebook -/

/-- Modelled from the spec: class `Note` (`note.hpp` is not among the sources):
"a single record with a title and body text. No behavior beyond
accessors/mutators." -/
structure Note where
  title : String
  text : String
  deriving DecidableEq

/-- Modelled from the spec: the mutator `Note::setTitle` (`note.hpp` is not among the
sources). -/
def Note.setTitle (n : Note) (title : String) : Note := { n with title := title }

/-- Modelled from the spec: the mutator `Note::setText` (`note.hpp` is not among the
sources). -/
def Note.setText (n : Note) (text : String) : Note := { n with text := text }

/-- A default-constructed `Note` (two empty strings). -/
def Note.empty : Note := ⟨"", ""⟩

/-- Modelled from the spec: class `Notebook` (`notebook.hpp` and `notebook.cpp`
are not among the sources): "an ordered sequence of Note (index = row number,
0-based, insertion/append order is display order)". -/
structure Notebook where
  notes : List Note
  deriving DecidableEq

/-- Modelled from the spec: `Notebook::size`, "returns current row count". -/
def Notebook.size (nb : Notebook) : Nat := nb.notes.length

/-- Modelled from the spec: `Notebook::insert`, "appends a Note to the end of
the sequence. Always succeeds". -/
def Notebook.insert (nb : Notebook) (note : Note) : Notebook := ⟨nb.notes ++ [note]⟩

/-- Modelled from the spec: `Notebook::erase`, "removes the Note at rowIndex.
Precondition: 0 <= rowIndex < size(); violating it is a programming error
(undefined/fatal, not a recoverable condition) ... subsequent rows shift index
down by one". A violated precondition is the result `none`. -/
def Notebook.erase (nb : Notebook) (rowIndex : Int) : Option Notebook :=
  if 0 ≤ rowIndex ∧ rowIndex < (nb.size : Int) then
    some ⟨nb.notes.eraseIdx rowIndex.toNat⟩
  else none

/-- Modelled from the spec: `Notebook::updateNoteAt`, "replaces the Note at
rowIndex with note. Same precondition as erase." -/
def Notebook.updateNoteAt (nb : Notebook) (note : Note) (rowIndex : Int) : Option Notebook :=
  if 0 ≤ rowIndex ∧ rowIndex < (nb.size : Int) then
    some ⟨nb.notes.set rowIndex.toNat note⟩
  else none

/-- Modelled from the spec: `Notebook::operator[]`, "indexed read access [i]:
returns the Note at row i". A row outside `0 <= i < size()` is the result
`none`. -/
def Notebook.get? (nb : Notebook) (i : Int) : Option Note :=
  if 0 ≤ i ∧ i < (nb.size : Int) then nb.notes[i.toNat]? else none

/-! ## EditNoteDialog (`src/editnotedialog.cpp`) -/

/-- Embeds `QDialog::DialogCode`. -/
inductive DialogCode where
  | Rejected
  | Accepted
  deriving DecidableEq

/-- The state of an `EditNoteDialog`: the two editable fields, the bound note
(`mNote` points to a note owned by the caller; the pointee is kept here), the
dialog's result code, whether it is still shown, and the texts of the error
boxes it has executed. -/
structure EditNoteDialog where
  titleEdit : String
  plainTextEdit : String
  mNote : Note
  result : DialogCode
  visible : Bool
  errors : List String
  deriving DecidableEq

namespace EditNoteDialog

/-- A dialog being executed (`exec()` shows it with result code `Rejected`)
with the given field contents, bound to `note`. -/
def editing (title text : String) (note : Note) : EditNoteDialog :=
  { titleEdit := title, plainTextEdit := text, mNote := note,
    result := .Rejected, visible := true, errors := [] }

/-- Embeds `EditNoteDialog::note`. -/
def note (d : EditNoteDialog) : Note := d.mNote

/-- Embeds `EditNoteDialog::setNote`. -/
def setNote (d : EditNoteDialog) (note : Note) : EditNoteDialog :=
  let d := { d with mNote := note }
  if !isEmpty d.mNote.title && !isEmpty d.mNote.text then
    { d with titleEdit := d.mNote.title, plainTextEdit := d.mNote.text }
  else d

/-- Embeds `QDialog::accept`: hides the dialog and sets the result code to `Accepted`. -/
def qDialogAccept (d : EditNoteDialog) : EditNoteDialog :=
  { d with result := .Accepted, visible := false }

/-- The text of the error box of `EditNoteDialog::accept` (translations taken
as identity). -/
def errorMessage (emptyTitle emptyText : Bool) : String :=
  let message := "Some errors happend, while saving your note:"
  let message :=
    if emptyTitle then message ++ "<br>- Title cannot be empty (all spaces - empty too)"
    else message
  if emptyText then message ++ "<br>- Text cannot be empty (all spaces - empty too)"
  else message

/-- Embeds `EditNoteDialog::accept`. -/
def accept (d : EditNoteDialog) : EditNoteDialog :=
  let emptyTitle := isEmpty (trimmed d.titleEdit)
  let emptyText := isEmpty (trimmed d.plainTextEdit)
  if emptyTitle || emptyText then
    { d with errors := d.errors ++ [errorMessage emptyTitle emptyText] }
  else
    let d := { d with mNote := d.mNote.setTitle d.titleEdit }
    let d := { d with mNote := d.mNote.setText d.plainTextEdit }
    qDialogAccept d

/-- The dialog as the constructor leaves it: `setupUi` creates both fields
blank; no note has been bound yet (the placeholder is the empty note). -/
def create : EditNoteDialog :=
  { titleEdit := "", plainTextEdit := "", mNote := Note.empty,
    result := .Rejected, visible := false, errors := [] }

/-- Embeds `QDialog::reject`: hides the dialog and sets the result code to
`Rejected`. -/
def qDialogReject (d : EditNoteDialog) : EditNoteDialog :=
  { d with result := .Rejected, visible := false }

end EditNoteDialog

/-- What the user does while the dialog is shown: retype a field, press OK
(which calls `accept()`), or press Cancel (which calls `reject()`). -/
inductive DialogAction where
  | typeTitle (s : String)
  | typeText (s : String)
  | pressOk
  | pressCancel
  deriving DecidableEq

namespace EditNoteDialog

/-- The event loop of a shown dialog, driven by the actions of the user. It
ends when `accept()` goes through, when Cancel is pressed, or, when the user
does nothing more, by closing the window (a reject). -/
def eventLoop : List DialogAction → EditNoteDialog → DialogCode × EditNoteDialog
  | [], d => (.Rejected, qDialogReject d)
  | .typeTitle s :: rest, d => eventLoop rest { d with titleEdit := s }
  | .typeText s :: rest, d => eventLoop rest { d with plainTextEdit := s }
  | .pressOk :: rest, d =>
    let d := accept d
    if d.result = .Accepted then (.Accepted, d) else eventLoop rest d
  | .pressCancel :: _, d => (.Rejected, qDialogReject d)

/-- Embeds `QDialog::exec`: shows the dialog with result code `Rejected`, runs its
event loop and returns the result code. -/
def exec (actions : List DialogAction) (d : EditNoteDialog) : DialogCode × EditNoteDialog :=
  eventLoop actions { d with result := .Rejected, visible := true }

end EditNoteDialog

/-! ## MainWindow (`src/mainwindow.cpp`) -/

/-- The session state held by `MainWindow`: `mNotebook` (a `unique_ptr`, empty
when no notebook is open), `mNotebookFileName`, and the window-modified flag
of `QWidget::setWindowModified`. -/
structure MainWindow where
  mNotebook : Option Notebook
  mNotebookFileName : String
  windowModified : Bool
  deriving DecidableEq

/-- The signals of `MainWindow` emitted in `mainwindow.cpp`. -/
inductive Signal where
  | notebookReady
  | notebookClosed
  | notebookCreated
  | notebookSaved
  | notebookOpened (fileName : String)
  | notebookFileNameChanged (name : String)
  deriving DecidableEq

/-- What the window does to its surroundings, in order: message boxes, file
pickers, file writes (with the outcome of `QSaveFile::commit`), file reads,
emitted signals, the call of `QCoreApplication::exit`, the edit-note dialog
(by its window title), the picker of the plain-text export and the write of
the exported text. -/
inductive Effect where
  | warning (text : String)
  | criticalWrite (fileName detail : String)
  | criticalOpen (fileName detail : String)
  | saveQuery
  | exitDlg
  | delConfirm
  | getSaveFileName
  | getOpenFileName
  | write (fileName : String) (nb : Notebook) (committed : Bool)
  | read (fileName : String)
  | emitted (s : Signal)
  | quit (code : Int)
  | noteDlg (windowTitle : String)
  | getSaveTextFileName
  | writeText (fileName : String) (text : String) (committed : Bool)
  deriving DecidableEq

/-- The buttons of the close prompt (`Save | Discard | Cancel`). -/
inductive SaveQueryButton where
  | Save
  | Discard
  | Cancel
  deriving DecidableEq

/-- The buttons of the exit prompt (`Save | Discard`). -/
inductive ExitButton where
  | Save
  | Discard
  deriving DecidableEq

/-- The buttons of the deletion prompt (`Yes | No`). -/
inductive DeleteButton where
  | Yes
  | No
  deriving DecidableEq

/-- The user's answers and the I/O outcomes during one command. Each is
consulted at most once by any command of the window:
* `saveQueryAnswer`: the result of `saveQuery.exec()` in `closeNotebook`;
* `saveFileName`: the result of `QFileDialog::getSaveFileName` (empty when the
  picker is cancelled);
* `openFileName`: the result of `QFileDialog::getOpenFileName`;
* `commit`: the result of `QSaveFile::commit`;
* `readFile f`: opening and reading `f`: `.error msg` when `QFile::open` fails
  with error string `msg` (or reading throws), `.ok nb` with the notebook
  deserialized from the file otherwise;
* `exitAnswer`: the result of `exitDlg.exec()`. -/
structure Env where
  saveQueryAnswer : SaveQueryButton
  saveFileName : String
  openFileName : String
  commit : Bool
  readFile : String → Except String Notebook
  exitAnswer : ExitButton

/-- A window together with the log of its effects so far (oldest first). -/
structure Run where
  win : MainWindow
  log : List Effect
  deriving DecidableEq

namespace MainWindow

/-- Appends an effect to the log. -/
def record (e : Effect) (r : Run) : Run := { r with log := r.log ++ [e] }

/-- Embeds `QWidget::setWindowModified`. -/
def setWindowModified (b : Bool) (r : Run) : Run :=
  { r with win := { r.win with windowModified := b } }

/-- Emission of a signal with the connections made in the constructor
(lines 41-57): `notebookCreated` sets the modified flag, `notebookSaved` clears
it; `notebookReady` and `notebookClosed` run `updateUI`, which only redraws
widgets; nothing is connected to the other signals. -/
def emit (s : Signal) (r : Run) : Run :=
  let r := record (.emitted s) r
  match s with
  | .notebookCreated => setWindowModified true r
  | .notebookSaved => setWindowModified false r
  | .notebookReady => r
  | .notebookClosed => r
  | .notebookOpened _ => r
  | .notebookFileNameChanged _ => r

/-- Embeds `MainWindow::isNotebookOpen`. -/
def isNotebookOpen (r : Run) : Bool := r.win.mNotebook.isSome

/-- Embeds `MainWindow::setNotebookFileName` (the default argument is the empty
string). -/
def setNotebookFileName (name : String) (r : Run) : Run :=
  let r := { r with win := { r.win with mNotebookFileName := name } }
  emit (.notebookFileNameChanged name) r

/-- Embeds `MainWindow::setNotebook`. -/
def setNotebook (notebook : Notebook) (r : Run) : Run :=
  { r with win := { r.win with mNotebook := some notebook } }

/-- Embeds `MainWindow::createNotebook`: `setNotebook(new Notebook)`. -/
def createNotebook (r : Run) : Run := setNotebook ⟨[]⟩ r

/-- Embeds `MainWindow::destroyNotebook`. -/
def destroyNotebook (r : Run) : Run :=
  { r with win := { r.win with mNotebook := none } }

/-- Embeds `MainWindow::saveNotebookToFile`. -/
def saveNotebookToFile (env : Env) (fileName : String) (r : Run) : Run :=
  match r.win.mNotebook with
  | none => r
  | some nb =>
    let r := record (.write fileName nb env.commit) r
    if !env.commit then
      record (.criticalWrite fileName "Unable to commit the save") r
    else
      setNotebookFileName fileName r

/-- Embeds `MainWindow::saveNotebookAs`. -/
def saveNotebookAs (env : Env) (r : Run) : Bool × Run :=
  if !isNotebookOpen r then
    (false, record (.warning "No open notebooks") r)
  else
    let r := record .getSaveFileName r
    let fileName := env.saveFileName
    if isEmpty fileName then
      (false, r)
    else
      let r := saveNotebookToFile env fileName r
      let r := setNotebookFileName fileName r
      let r := emit .notebookReady r
      let r := emit .notebookSaved r
      (true, r)

/-- Embeds `MainWindow::saveNotebook`. -/
def saveNotebook (env : Env) (r : Run) : Bool × Run :=
  if !isNotebookOpen r then
    (false, record (.warning "No open notebooks") r)
  else if isEmpty r.win.mNotebookFileName then
    saveNotebookAs env r
  else
    let r := saveNotebookToFile env r.win.mNotebookFileName r
    let r := emit .notebookReady r
    let r := emit .notebookSaved r
    (true, r)

/-- The statements of the `Discard` case of `closeNotebook` (lines 276-282),
which the `Save` case falls through to. -/
def discardCase (r : Run) : Run :=
  let r := destroyNotebook r
  let r := setNotebookFileName "" r
  emit .notebookClosed r

/-- Embeds `MainWindow::closeNotebook`. -/
def closeNotebook (env : Env) (r : Run) : Bool × Run :=
  if !isNotebookOpen r then
    (true, r)
  else
    let r := record .saveQuery r
    match env.saveQueryAnswer with
    | .Save =>
      let p := saveNotebook env r
      if !p.1 then (false, p.2)
      else (true, discardCase p.2)
    | .Discard => (true, discardCase r)
    | .Cancel => (false, r)

/-- Embeds `MainWindow::newNotebook`. -/
def newNotebook (env : Env) (r : Run) : Run :=
  let p := closeNotebook env r
  if !p.1 then p.2
  else
    let r := createNotebook p.2
    let r := setNotebookFileName "" r
    let r := emit .notebookReady r
    emit .notebookCreated r

/-- Embeds `MainWindow::openNotebook`. -/
def openNotebook (env : Env) (r : Run) : Bool × Run :=
  let p := if isNotebookOpen r then closeNotebook env r else (true, r)
  if !p.1 then (false, p.2)
  else
    let r := record .getOpenFileName p.2
    let fileName := env.openFileName
    if isEmpty fileName then
      (false, r)
    else
      let r := record (.read fileName) r
      match env.readFile fileName with
      | .error msg => (false, record (.criticalOpen fileName ("open(): " ++ msg)) r)
      | .ok nb =>
        let r := setNotebook nb r
        let r := setNotebookFileName fileName r
        let r := emit .notebookReady r
        let r := emit (.notebookOpened r.win.mNotebookFileName) r
        (true, r)

/-- Embeds `MainWindow::on_actionExit_triggered`. -/
def on_actionExit_triggered (env : Env) (r : Run) : Run :=
  let r :=
    if isNotebookOpen r then
      let r := record .exitDlg r
      match env.exitAnswer with
      | .Save => (saveNotebook env r).2
      | .Discard => r
    else r
  record (.quit 0) r

/-- Insertion into a `std::set<int>`, kept as the strictly ascending list of
its elements. -/
def stdSetInsert (x : Int) : List Int → List Int
  | [] => [x]
  | y :: ys =>
    if x < y then x :: y :: ys
    else if x = y then y :: ys
    else y :: stdSetInsert x ys

/-- The `std::set<int> rows` built from the selected rows (lines 330-340). -/
def selectedRowSet (idc : List Int) : List Int :=
  idc.foldl (fun rows i => stdSetInsert i rows) []

/-- The erase loop of `deleteNotes` (lines 343-347) over the rows in the
order visited; `none` when an `erase` is called outside its precondition. -/
def eraseLoop : List Int → Notebook → Option Notebook
  | [], nb => some nb
  | row :: rest, nb =>
    match nb.erase row with
    | none => none
    | some nb1 => eraseLoop rest nb1

/-- Embeds `MainWindow::deleteNotes`, for the answer given to the confirmation box
and the rows `idc` of the view's selection. The set is walked from `rbegin()`
to `rend()`, that is in descending order. `none` when `mNotebook` is null or
an `erase` violates its precondition. -/
def deleteNotes (answer : DeleteButton) (idc : List Int) (r : Run) : Option Run :=
  let r := record .delConfirm r
  match answer with
  | .No => some r
  | .Yes =>
    let rows := selectedRowSet idc
    match r.win.mNotebook with
    | none => if rows.isEmpty then some r else none
    | some nb =>
      match eraseLoop rows.reverse nb with
      | none => none
      | some nb1 => some { r with win := { r.win with mNotebook := some nb1 } }

/-- The state right after the constructor has set up the connections and
before it calls `newNotebook()`: no notebook, no file name, not modified. -/
def constructed : Run :=
  { win := { mNotebook := none, mNotebookFileName := "", windowModified := false },
    log := [] }

/-- Embeds `MainWindow::newNote`, for the actions of the user in the dialog. The
local `note` is default-constructed and bound to the dialog by pointer, so
after `exec()` it is the dialog's `mNote`. -/
def newNote (actions : List DialogAction) (r : Run) : Bool × Run :=
  match r.win.mNotebook with
  | none => (false, record (.warning "No open notebooks") r)
  | some nb =>
    let r := record (.noteDlg "New Note") r
    let noteDlg := EditNoteDialog.create.setNote Note.empty
    let p := noteDlg.exec actions
    if p.1 ≠ .Accepted then (false, r)
    else (true, { r with win := { r.win with mNotebook := some (nb.insert p.2.mNote) } })

/-- Embeds `MainWindow::on_notesView_activated`, for the rows of the selection,
the row of the activated index and the actions of the user in the dialog.
`none` when `mNotebook` is null or the row is outside the notebook. -/
def on_notesView_activated (selectedRows : List Int) (index : Int)
    (actions : List DialogAction) (r : Run) : Option Run :=
  if selectedRows.length ≠ 1 then some r
  else
    let pos := index
    match r.win.mNotebook with
    | none => none
    | some nb =>
      match nb.get? pos with
      | none => none
      | some note =>
        let r := record (.noteDlg "Edit Note") r
        let noteDlg := EditNoteDialog.create.setNote note
        let p := noteDlg.exec actions
        if p.1 = .Accepted then
          match nb.updateNoteAt p.2.mNote pos with
          | none => none
          | some nb1 => some { r with win := { r.win with mNotebook := some nb1 } }
        else some r

/-- The string `QString("<mark> %1/%2 <mark>\n").arg(i+1).arg(ns)` of the export
loop: `arg` of an `int` substitutes its decimal representation, first for
`%1`, then for `%2`. -/
def delimiterLine (mark : String) (i ns : Nat) : String :=
  mark ++ " " ++ toString (i + 1) ++ "/" ++ toString ns ++ " " ++ mark ++ "\n"

/-- The body of the export loop (lines 545-548) for the counter `i`: the four
writes to the text stream `ost`; `none` when row `i` is outside the notebook.
Translations are taken as identity. -/
def exportStep (nb : Notebook) (ns : Nat) (ost : String) (i : Nat) : Option String :=
  match nb.get? (i : Int) with
  | none => none
  | some note =>
    let ost := ost ++ delimiterLine "+++" i ns
    let ost := ost ++ "Title: " ++ note.title ++ "\n"
    let ost := ost ++ "Content: " ++ note.text ++ "\n"
    let ost := ost ++ delimiterLine "---" i ns
    some ost

/-- The export loop `for (int i = 0; i < ns; i++)` with `ns = mNotebook->size()`
(lines 543-549), started on an empty stream. -/
def exportText (nb : Notebook) : Option String :=
  let ns := nb.size
  (List.range ns).foldlM (exportStep nb ns) ""

/-- Embeds `MainWindow::on_actionSave_As_Text_triggered`; the picker answers
`env.saveFileName`. `none` when `mNotebook` is null. -/
def on_actionSave_As_Text_triggered (env : Env) (r : Run) : Option Run :=
  let r := record .getSaveTextFileName r
  let fileName := env.saveFileName
  if isEmpty fileName then some r
  else
    match r.win.mNotebook with
    | none => none
    | some nb =>
      match exportText nb with
      | none => none
      | some text =>
        let r := record (.writeText fileName text env.commit) r
        if !env.commit then
          some (record (.criticalWrite fileName "Unable to commit the save") r)
        else some r

/-- The commands of the File menu that act on the session. -/
inductive Command where
  | new
  | openFile
  | save
  | saveAs
  | close
  | exitSave
  deriving DecidableEq

/-- One command of the File menu, run in the environment `env`. -/
def step (c : Command) (env : Env) (r : Run) : Run :=
  match c with
  | .new => newNotebook env r
  | .openFile => (openNotebook env r).2
  | .save => (saveNotebook env r).2
  | .saveAs => (saveNotebookAs env r).2
  | .close => (closeNotebook env r).2
  | .exitSave => on_actionExit_triggered env r

/-- A sequence of commands, each with its own environment. -/
def runCommands : List (Command × Env) → Run → Run
  | [], r => r
  | (c, env) :: rest, r => runCommands rest (step c env r)

end MainWindow

/-! ## Auxiliary definitions for the statements -/

/-- The elements of `l` whose index, counted from `k`, is not selected. -/
def keepRows {α : Type} (sel : Nat → Bool) (k : Nat) (l : List α) : List α :=
  ((l.enumFrom k).filter (fun p => !sel p.1)).map Prod.snd

/-- Whether an effect is a file write. -/
def Effect.isWrite : Effect → Bool
  | .write _ _ _ => true
  | _ => false

/-- Successive calls of `saveNotebook()`, one per environment, with the list
of their results. -/
def MainWindow.saveNotebookRepeatedly : List Env → Run → List Bool × Run
  | [], r => ([], r)
  | env :: envs, r =>
    let p := MainWindow.saveNotebook env r
    let q := MainWindow.saveNotebookRepeatedly envs p.2
    (p.1 :: q.1, q.2)

/-- An environment given by its answers; every file reads as `file`. -/
def Env.answers (answer : SaveQueryButton) (saveName openName : String) (commit : Bool)
    (file : Except String Notebook) : Env :=
  { saveQueryAnswer := answer, saveFileName := saveName, openFileName := openName,
    commit := commit, readFile := fun _ => file, exitAnswer := .Discard }

/-- An untitled, modified session holding one note. -/
def Run.untitled : Run :=
  { win := { mNotebook := some ⟨[⟨"A", "a"⟩]⟩, mNotebookFileName := "", windowModified := true },
    log := [] }

/-- A saved, unmodified session holding one note, bound to `a.nbk`. -/
def Run.saved : Run :=
  { win := { mNotebook := some ⟨[⟨"A", "a"⟩]⟩, mNotebookFileName := "a.nbk",
             windowModified := false },
    log := [] }

/-- The main window once its constructor has returned: the constructor calls
`newNotebook()` on the constructed state; no notebook is open then, so no
prompt is shown and the environment is not consulted. -/
def MainWindow.initial : Run :=
  MainWindow.newNotebook (Env.answers .Cancel "" "" true (.error "")) MainWindow.constructed

/-- The four lines that the spec gives for the note `p.2` at 0-based row `p.1`
of `ns` notes: a delimiter line `+++ i/N +++`, a `Title: <title>` line, a
`Content: <text>` line and a delimiter line `--- i/N ---`, with `i = p.1 + 1`
and `N = ns`, each line ended by a newline. -/
def exportBlock (ns : Nat) (p : Nat × Note) : String :=
  "+++ " ++ toString (p.1 + 1) ++ "/" ++ toString ns ++ " +++" ++ "\n" ++
  "Title: " ++ p.2.title ++ "\n" ++
  "Content: " ++ p.2.text ++ "\n" ++
  "--- " ++ toString (p.1 + 1) ++ "/" ++ toString ns ++ " ---" ++ "\n"

/-- The plain-text export in the words of the spec: the concatenation, for each
note in notebook order, of its four lines, numbered from 1, with `N` the total
count of notes. -/
def exportSpec (notes : List Note) : String :=
  String.join (notes.enum.map (exportBlock notes.length))

open MainWindow

/-! ## Theorems -/

/-- A string is empty after trimming exactly when all its characters are whitespace. -/
theorem trimmed_eq_empty_iff (s : String) :
    trimmed s = "" ↔ ∀ c ∈ s.data, isSpace c = true := by
  have key : ∀ l : List Char,
      ((l.dropWhile isSpace).reverse.dropWhile isSpace).reverse = [] ↔
        ∀ c ∈ l, isSpace c = true := by
    intro l
    rw [List.reverse_eq_nil_iff, List.dropWhile_eq_nil_iff]
    constructor
    · intro h
      by_contra hne
      have hnil : l.dropWhile isSpace ≠ [] := by
        rw [Ne, List.dropWhile_eq_nil_iff]; exact hne
      have h1 := List.head_dropWhile_not isSpace l hnil
      have h2 := h _ (List.mem_reverse.mpr (List.head_mem hnil))
      simp [h2] at h1
    · intro h
      have : l.dropWhile isSpace = [] := List.dropWhile_eq_nil_iff.mpr h
      simp [this]
  unfold trimmed
  constructor
  · intro h
    have := congrArg String.data h
    exact (key s.data).mp this
  · intro h
    have := (key s.data).mpr h
    rw [this]

/-- C1: for all field contents `title`, `text` and every bound note, `accept()` does not
reach `Accepted` if and only if the trimmed title is empty or the trimmed text is empty; and
whenever it does not reach `Accepted`, the bound note is what it was before the call. -/
theorem accept_rejects_iff (title text : String) (note : Note) :
    ((EditNoteDialog.editing title text note).accept.result ≠ DialogCode.Accepted ↔
      (trimmed title = "" ∨ trimmed text = "")) ∧
    ((EditNoteDialog.editing title text note).accept.result ≠ DialogCode.Accepted →
      (EditNoteDialog.editing title text note).accept.mNote = note) := by
  by_cases h : trimmed title = "" ∨ trimmed text = ""
  · have hc : (isEmpty (trimmed title) || isEmpty (trimmed text)) = true := by
      simpa [isEmpty] using h
    simp [EditNoteDialog.accept, EditNoteDialog.editing, hc, h]
  · have hc : (isEmpty (trimmed title) || isEmpty (trimmed text)) = false := by
      simpa [isEmpty] using h
    simp [EditNoteDialog.accept, EditNoteDialog.editing, hc, h, EditNoteDialog.qDialogAccept]

/-- C1 at title `" "`, text `"hello"`: the accept is rejected and the bound note is
unchanged. -/
theorem accept_rejects_iff_witness :
    (EditNoteDialog.editing " " "hello" ⟨"old", "body"⟩).accept.result ≠ DialogCode.Accepted ∧
    (EditNoteDialog.editing " " "hello" ⟨"old", "body"⟩).accept.mNote = ⟨"old", "body"⟩ :=
  have h := accept_rejects_iff " " "hello" ⟨"old", "body"⟩
  ⟨h.1.mpr (Or.inl (by decide)), h.2 (h.1.mpr (Or.inl (by decide)))⟩

/-- C2: when both trimmed fields are non-empty, `accept()` reaches `Accepted` and the bound
note holds the title field and the text field exactly as entered (untrimmed). -/
theorem accept_writes_back (title text : String) (note : Note)
    (ht : trimmed title ≠ "") (hx : trimmed text ≠ "") :
    (EditNoteDialog.editing title text note).accept.result = DialogCode.Accepted ∧
    (EditNoteDialog.editing title text note).accept.mNote.title = title ∧
    (EditNoteDialog.editing title text note).accept.mNote.text = text := by
  have hc : (isEmpty (trimmed title) || isEmpty (trimmed text)) = false := by
    simp [isEmpty, ht, hx]
  simp [EditNoteDialog.accept, EditNoteDialog.editing, hc, EditNoteDialog.qDialogAccept,
    Note.setTitle, Note.setText]

/-- C2 at title `"Groceries"`, text `"Milk"`: accepted, and the note is
(`"Groceries"`, `"Milk"`). -/
theorem accept_writes_back_witness :
    trimmed "Groceries" ≠ "" ∧ trimmed "Milk" ≠ "" ∧
    (EditNoteDialog.editing "Groceries" "Milk" Note.empty).accept.result = DialogCode.Accepted ∧
    (EditNoteDialog.editing "Groceries" "Milk" Note.empty).accept.mNote = ⟨"Groceries", "Milk"⟩ :=
  have h := accept_writes_back "Groceries" "Milk" Note.empty (by decide) (by decide)
  ⟨by decide, by decide, h.1, by decide⟩


/-- Nothing is kept of the empty list. -/
theorem keepRows_nil {α : Type} (sel : Nat → Bool) (k : Nat) :
    keepRows sel k ([] : List α) = [] := rfl

/-- Unfolding of `keepRows` on a non-empty list. -/
theorem keepRows_cons {α : Type} (sel : Nat → Bool) (k : Nat) (x : α) (l : List α) :
    keepRows sel k (x :: l) =
      if sel k then keepRows sel (k + 1) l else x :: keepRows sel (k + 1) l := by
  cases h : sel k <;> simp [keepRows, List.enumFrom, h]

/-- When no index from `k` on is selected, every element is kept. -/
theorem keepRows_none {α : Type} (sel : Nat → Bool) (l : List α) :
    ∀ k, (∀ j, k ≤ j → sel j = false) → keepRows sel k l = l := by
  induction l with
  | nil => intro k _; rfl
  | cons x xs ih =>
    intro k h
    rw [keepRows_cons, h k (le_refl k), ih (k + 1) (fun j hj => h j (by omega))]
    simp

/-- Erasing row `r` of a list in which no row from `r` on is selected amounts to selecting
row `r` as well. -/
theorem keepRows_eraseIdx {α : Type} (sel : Nat → Bool) (l : List α) :
    ∀ k r, r < l.length → (∀ j, k + r ≤ j → sel j = false) →
      keepRows sel k (l.eraseIdx r) = keepRows (fun j => sel j || j == k + r) k l := by
  induction l with
  | nil => intro k r hr; simp at hr
  | cons x xs ih =>
    intro k r hr h
    cases r with
    | zero =>
      rw [List.eraseIdx_cons_zero, keepRows_cons]
      simp only [Nat.add_zero, beq_self_eq_true, Bool.or_true, if_true]
      rw [keepRows_none sel xs k (fun j hj => h j (by omega))]
      rw [keepRows_none _ xs (k + 1)]
      intro j hj
      have hne : (j == k) = false := by simp; omega
      simp [h j (by omega), hne]
    | succ r =>
      rw [List.eraseIdx_cons_succ, keepRows_cons, keepRows_cons]
      have hk : (k == k + (r + 1)) = false := by simp
      have hr1 : r < xs.length := by simpa using hr
      have e := ih (k + 1) r hr1 (fun j hj => h j (by omega))
      have e2 : (fun j => sel j || j == k + 1 + r) = (fun j => sel j || j == k + (r + 1)) := by
        funext j
        have : k + 1 + r = k + (r + 1) := by omega
        rw [this]
      rw [e2] at e
      simp only [hk, Bool.or_false]
      rw [e]


/-- The erase loop over a strictly descending list of valid rows never violates the
precondition of `erase` and leaves the rows that are not in the list, in order. -/
theorem eraseLoop_descending :
    ∀ (d : List Int) (nb : Notebook),
      d.Pairwise (fun a b => a > b) →
      (∀ x ∈ d, 0 ≤ x ∧ x < (nb.size : Int)) →
      MainWindow.eraseLoop d nb =
        some ⟨keepRows (fun j => decide ((j : Int) ∈ d)) 0 nb.notes⟩ := by
  intro d
  induction d with
  | nil =>
    intro nb _ _
    simp only [MainWindow.eraseLoop, List.not_mem_nil, decide_False]
    rw [keepRows_none _ _ 0 (fun _ _ => rfl)]
  | cons x rest ih =>
    intro nb hp hv
    have hx := hv x (List.mem_cons_self x rest)
    rw [List.pairwise_cons] at hp
    have hlen : x.toNat < nb.notes.length := by
      have := hx.2
      simp only [Notebook.size] at this
      omega
    have hvalid : ∀ y ∈ rest, 0 ≤ y ∧
        y < ((Notebook.mk (nb.notes.eraseIdx x.toNat)).size : Int) := by
      intro y hy
      have h1 := hp.1 y hy
      have h2 := (hv y (List.mem_cons_of_mem x hy)).1
      refine ⟨h2, ?_⟩
      simp only [Notebook.size, List.length_eraseIdx, hlen, if_true]
      omega
    have herase : nb.erase x = some ⟨nb.notes.eraseIdx x.toNat⟩ := by
      simp [Notebook.erase, hx]
    simp only [MainWindow.eraseLoop, herase]
    rw [ih _ hp.2 hvalid]
    have hsel : ∀ j, 0 + x.toNat ≤ j → (fun j : Nat => decide ((j : Int) ∈ rest)) j = false := by
      intro j hj
      simp only [decide_eq_false_iff_not]
      intro hmem
      have := hp.1 _ hmem
      omega
    rw [keepRows_eraseIdx _ _ 0 x.toNat hlen hsel]
    have hfun : (fun j : Nat => decide ((j : Int) ∈ rest) || j == 0 + x.toNat) =
        (fun j : Nat => decide ((j : Int) ∈ x :: rest)) := by
      funext j
      have hxj : ((j : Int) = x) ↔ (j = 0 + x.toNat) := by omega
      by_cases h1 : (j : Int) = x
      · have h2 := hxj.mp h1
        simp [h1, ← h2]
      · have h2 : ¬ (j = x.toNat) := fun h => h1 (hxj.mpr (by omega))
        simp [h1, h2]
    rw [hfun]

/-- Membership in a set after an insertion. -/
theorem stdSetInsert_mem (x y : Int) (s : List Int) :
    y ∈ MainWindow.stdSetInsert x s ↔ y = x ∨ y ∈ s := by
  induction s with
  | nil => simp [MainWindow.stdSetInsert]
  | cons z zs ih =>
    unfold MainWindow.stdSetInsert
    split
    · simp
    · split
      · rename_i h; subst h; simp
      · simp [ih]; tauto

/-- Insertion keeps the list of elements strictly ascending. -/
theorem stdSetInsert_sorted (x : Int) (s : List Int) (hs : s.Pairwise (fun a b => a < b)) :
    (MainWindow.stdSetInsert x s).Pairwise (fun a b => a < b) := by
  induction s with
  | nil => simp [MainWindow.stdSetInsert]
  | cons z zs ih =>
    rw [List.pairwise_cons] at hs
    unfold MainWindow.stdSetInsert
    split
    · rename_i hlt
      refine List.pairwise_cons.mpr ⟨?_, List.pairwise_cons.mpr hs⟩
      intro a ha
      rcases List.mem_cons.mp ha with h | h
      · omega
      · have := hs.1 a h; omega
    · split
      · exact List.pairwise_cons.mpr hs
      · rename_i h1 h2
        refine List.pairwise_cons.mpr ⟨?_, ih hs.2⟩
        intro a ha
        rcases (stdSetInsert_mem x a zs).mp ha with h | h
        · omega
        · exact hs.1 a h

/-- The row set is strictly ascending and holds exactly the selected rows. -/
theorem selectedRowSet_spec (idc : List Int) :
    (MainWindow.selectedRowSet idc).Pairwise (fun a b => a < b) ∧
    ∀ y, y ∈ MainWindow.selectedRowSet idc ↔ y ∈ idc := by
  have key : ∀ (l s : List Int), s.Pairwise (fun a b => a < b) →
      (l.foldl (fun rows i => MainWindow.stdSetInsert i rows) s).Pairwise (fun a b => a < b) ∧
      ∀ y, y ∈ l.foldl (fun rows i => MainWindow.stdSetInsert i rows) s ↔ y ∈ s ∨ y ∈ l := by
    intro l
    induction l with
    | nil => intro s hs; simp [hs]
    | cons a as ih =>
      intro s hs
      have h := ih (MainWindow.stdSetInsert a s) (stdSetInsert_sorted a s hs)
      refine ⟨h.1, ?_⟩
      intro y
      rw [List.foldl_cons, h.2 y, stdSetInsert_mem]
      simp only [List.mem_cons]
      tauto
  have h := key idc [] List.Pairwise.nil
  exact ⟨h.1, fun y => by rw [MainWindow.selectedRowSet, h.2 y]; simp⟩


/-- C3: for a notebook `nb` and selected rows `idc` that are all valid (repeats allowed),
the confirmed `deleteNotes()` visits the rows in strictly descending order, every `erase` of
the loop meets its precondition (the loop ends in `some`), and the notebook left consists of
exactly the notes whose original index is not selected, in their original order; the file name
and the modified flag are untouched. -/
theorem deleteNotes_keeps_unselected (r : Run) (nb : Notebook) (idc : List Int)
    (hopen : r.win.mNotebook = some nb)
    (hvalid : ∀ i ∈ idc, 0 ≤ i ∧ i < (nb.size : Int)) :
    (MainWindow.selectedRowSet idc).reverse.Pairwise (fun a b => a > b) ∧
    MainWindow.eraseLoop (MainWindow.selectedRowSet idc).reverse nb =
      some ⟨(nb.notes.enum.filter (fun p => decide ((p.1 : Int) ∉ idc))).map Prod.snd⟩ ∧
    MainWindow.deleteNotes DeleteButton.Yes idc r =
      some { win := { r.win with
                      mNotebook := some ⟨(nb.notes.enum.filter
                        (fun p => decide ((p.1 : Int) ∉ idc))).map Prod.snd⟩ },
             log := r.log ++ [Effect.delConfirm] } := by
  have hs := selectedRowSet_spec idc
  have hdesc : (MainWindow.selectedRowSet idc).reverse.Pairwise (fun a b => a > b) := by
    rw [List.pairwise_reverse]; exact hs.1
  have hv : ∀ x ∈ (MainWindow.selectedRowSet idc).reverse, 0 ≤ x ∧ x < (nb.size : Int) := by
    intro x hx
    exact hvalid x ((hs.2 x).mp (List.mem_reverse.mp hx))
  have hloop := eraseLoop_descending _ nb hdesc hv
  have hkeep : keepRows (fun j => decide ((j : Int) ∈ (MainWindow.selectedRowSet idc).reverse))
      0 nb.notes =
      (nb.notes.enum.filter (fun p => decide ((p.1 : Int) ∉ idc))).map Prod.snd := by
    unfold keepRows List.enum
    congr 1
    apply List.filter_congr
    intro p _
    simp [hs.2]
  rw [hkeep] at hloop
  refine ⟨hdesc, hloop, ?_⟩
  simp [MainWindow.deleteNotes, MainWindow.record, hopen, hloop]

/-- C3 on a 3-row notebook with rows 0 and 2 selected (row 0 listed twice): the notebook
left has one row, the original row 1. -/
theorem deleteNotes_keeps_unselected_witness :
    MainWindow.deleteNotes DeleteButton.Yes [0, 2, 0]
        { win := { mNotebook := some ⟨[⟨"A", "a"⟩, ⟨"B", "b"⟩, ⟨"C", "c"⟩]⟩,
                   mNotebookFileName := "", windowModified := true },
          log := [] } =
      some { win := { mNotebook := some ⟨[⟨"B", "b"⟩]⟩,
                      mNotebookFileName := "", windowModified := true },
             log := [Effect.delConfirm] } :=
  (deleteNotes_keeps_unselected
      { win := { mNotebook := some ⟨[⟨"A", "a"⟩, ⟨"B", "b"⟩, ⟨"C", "c"⟩]⟩,
                 mNotebookFileName := "", windowModified := true },
        log := [] }
      ⟨[⟨"A", "a"⟩, ⟨"B", "b"⟩, ⟨"C", "c"⟩]⟩ [0, 2, 0] rfl (by decide)).2.2.trans (by decide)


/-- With a notebook open and a non-empty bound file name `f`, `saveNotebook()` returns
true, writes to `f` and never shows the file picker. -/
theorem saveNotebook_bound_step (env : Env) (r : Run) (nb : Notebook) (f : String)
    (hopen : r.win.mNotebook = some nb) (hf : r.win.mNotebookFileName = f) (hne : f ≠ "") :
    (saveNotebook env r).1 = true ∧
    (saveNotebook env r).2.win = ⟨some nb, f, false⟩ ∧
    ∃ added, (saveNotebook env r).2.log = r.log ++ added ∧
      Effect.getSaveFileName ∉ added ∧
      added.filter Effect.isWrite = [Effect.write f nb env.commit] := by
  obtain ⟨⟨nbo, fn, m⟩, log⟩ := r
  simp only at hopen hf
  subst hopen hf
  cases hc : env.commit <;>
    simp [saveNotebook, isNotebookOpen, isEmpty, hne, saveNotebookToFile, record, emit,
      setWindowModified, setNotebookFileName, hc, Effect.isWrite]

/-- C4, the code at the failing input: Save on an untitled, modified notebook, the user
picks `n.nbk`, the commit fails. `saveNotebook()` reports the failure in a message box and
then still binds the file name `n.nbk`, clears the modified flag and returns true. -/
theorem saveNotebook_failed_commit_marks_saved :
    saveNotebook (Env.answers .Cancel "n.nbk" "" false (.error "")) Run.untitled =
      (true,
       { win := { mNotebook := some ⟨[⟨"A", "a"⟩]⟩, mNotebookFileName := "n.nbk",
                  windowModified := false },
         log := [Effect.getSaveFileName,
                 Effect.write "n.nbk" ⟨[⟨"A", "a"⟩]⟩ false,
                 Effect.criticalWrite "n.nbk" "Unable to commit the save",
                 Effect.emitted (.notebookFileNameChanged "n.nbk"),
                 Effect.emitted .notebookReady,
                 Effect.emitted .notebookSaved] }) := by
  decide


/-- Any number of `saveNotebook()` calls on a notebook bound to `f` all return true, all
write to `f`, and none shows the file picker. -/
theorem saveNotebookRepeatedly_bound (nb : Notebook) (f : String) (hne : f ≠ "") :
    ∀ (envs : List Env) (r : Run),
      r.win.mNotebook = some nb → r.win.mNotebookFileName = f →
      (saveNotebookRepeatedly envs r).1 = envs.map (fun _ => true) ∧
      (envs ≠ [] → (saveNotebookRepeatedly envs r).2.win = ⟨some nb, f, false⟩) ∧
      ∃ added, (saveNotebookRepeatedly envs r).2.log = r.log ++ added ∧
        Effect.getSaveFileName ∉ added ∧
        added.filter Effect.isWrite = envs.map (fun e => Effect.write f nb e.commit) := by
  intro envs
  induction envs with
  | nil =>
    intro r _ _
    exact ⟨rfl, fun h => absurd rfl h, [], by simp [saveNotebookRepeatedly], by simp, rfl⟩
  | cons env envs ih =>
    intro r hopen hf
    obtain ⟨h1, h2, a1, hl1, hn1, hw1⟩ := saveNotebook_bound_step env r nb f hopen hf hne
    have hopen2 : (saveNotebook env r).2.win.mNotebook = some nb := by rw [h2]
    have hf2 : (saveNotebook env r).2.win.mNotebookFileName = f := by rw [h2]
    obtain ⟨g1, g2, a2, hl2, hn2, hw2⟩ := ih (saveNotebook env r).2 hopen2 hf2
    refine ⟨?_, ?_, a1 ++ a2, ?_, ?_, ?_⟩
    · simp [saveNotebookRepeatedly, h1, g1]
    · intro _
      cases envs with
      | nil => simpa [saveNotebookRepeatedly] using h2
      | cons e es => simpa [saveNotebookRepeatedly] using g2 (by simp)
    · simp [saveNotebookRepeatedly, hl2, hl1, List.append_assoc]
    · simp [hn1, hn2]
    · simp [List.filter_append, hw1, hw2]

/-- C5: with a notebook open, (1) if the file name is empty then `saveNotebook()` is
`saveNotebookAs()` (same result, same final state, same effects) for every environment, i.e.
for every picker answer and write outcome; (2) after a `saveNotebookAs()` in which the user
picked the non-empty name `f` and the commit succeeded, the result is true, the file name is
`f` and the modified flag is false, and every sequence of subsequent `saveNotebook()` calls
returns true each time, directs each write of the notebook to `f` (one write per call, with
the commit outcome of that call) and never shows the file picker. -/
theorem saveNotebook_saveAs_then_direct (r : Run) (nb : Notebook) (env : Env)
    (hopen : r.win.mNotebook = some nb) :
    (r.win.mNotebookFileName = "" → saveNotebook env r = saveNotebookAs env r) ∧
    (env.saveFileName ≠ "" → env.commit = true →
      (saveNotebookAs env r).1 = true ∧
      (saveNotebookAs env r).2.win = ⟨some nb, env.saveFileName, false⟩ ∧
      ∀ envs : List Env,
        (saveNotebookRepeatedly envs (saveNotebookAs env r).2).1 = envs.map (fun _ => true) ∧
        (saveNotebookRepeatedly envs (saveNotebookAs env r).2).2.win =
          ⟨some nb, env.saveFileName, false⟩ ∧
        ∃ added,
          (saveNotebookRepeatedly envs (saveNotebookAs env r).2).2.log =
            (saveNotebookAs env r).2.log ++ added ∧
          Effect.getSaveFileName ∉ added ∧
          added.filter Effect.isWrite =
            envs.map (fun e => Effect.write env.saveFileName nb e.commit)) := by
  constructor
  · intro hf
    simp [saveNotebook, isNotebookOpen, hopen, hf, isEmpty]
  · intro hne hc
    have hwin : (saveNotebookAs env r).2.win = ⟨some nb, env.saveFileName, false⟩ := by
      simp [saveNotebookAs, isNotebookOpen, hopen, isEmpty, hne, saveNotebookToFile, record,
        emit, setWindowModified, setNotebookFileName, hc]
    refine ⟨?_, hwin, ?_⟩
    · simp [saveNotebookAs, isNotebookOpen, hopen, isEmpty, hne]
    · intro envs
      have h := saveNotebookRepeatedly_bound nb env.saveFileName hne envs
        (saveNotebookAs env r).2 (by rw [hwin]) (by rw [hwin])
      refine ⟨h.1, ?_, h.2.2⟩
      cases envs with
      | nil => simpa [saveNotebookRepeatedly] using hwin
      | cons e es => exact h.2.1 (by simp)


/-- C5 on an untitled notebook saved as `n.nbk`: Save is Save-As there, and two later
saves both return true whatever the picker would answer. -/
theorem saveNotebook_saveAs_then_direct_witness :
    saveNotebook (Env.answers .Cancel "n.nbk" "" true (.error "")) Run.untitled =
      saveNotebookAs (Env.answers .Cancel "n.nbk" "" true (.error "")) Run.untitled ∧
    (saveNotebookRepeatedly
        [Env.answers .Cancel "other.nbk" "" true (.error ""),
         Env.answers .Cancel "" "" false (.error "")]
        (saveNotebookAs (Env.answers .Cancel "n.nbk" "" true (.error "")) Run.untitled).2).1 =
      [true, true] :=
  have h := saveNotebook_saveAs_then_direct Run.untitled ⟨[⟨"A", "a"⟩]⟩
    (Env.answers .Cancel "n.nbk" "" true (.error "")) rfl
  ⟨h.1 rfl, ((h.2 (by decide) rfl).2.2 _).1⟩

/-- C6, the code at the failing input: Close on an untitled, modified notebook, the user
answers Save and picks `n.nbk`, the commit fails. `closeNotebook()` returns true and the
notebook is destroyed although nothing was written. -/
theorem closeNotebook_failed_save_destroys :
    closeNotebook (Env.answers .Save "n.nbk" "" false (.error "")) Run.untitled =
      (true,
       { win := { mNotebook := none, mNotebookFileName := "", windowModified := false },
         log := [Effect.saveQuery,
                 Effect.getSaveFileName,
                 Effect.write "n.nbk" ⟨[⟨"A", "a"⟩]⟩ false,
                 Effect.criticalWrite "n.nbk" "Unable to commit the save",
                 Effect.emitted (.notebookFileNameChanged "n.nbk"),
                 Effect.emitted .notebookReady,
                 Effect.emitted .notebookSaved,
                 Effect.emitted (.notebookFileNameChanged ""),
                 Effect.emitted .notebookClosed] }) := by
  decide

/-- C7 fails as stated: with a saved notebook open, the user lets the close prompt pass
with Discard and picks `b.nbk`, which cannot be opened. `openNotebook()` returns false, but
the state afterwards is not the state before: no notebook is open and the file name is empty. -/
theorem openNotebook_failure_loses_notebook :
    (Env.answers .Discard "" "b.nbk" true (.error "No such file")).readFile "b.nbk" =
      .error "No such file" ∧
    openNotebook (Env.answers .Discard "" "b.nbk" true (.error "No such file")) Run.saved =
      (false,
       { win := { mNotebook := none, mNotebookFileName := "", windowModified := false },
         log := [Effect.saveQuery,
                 Effect.emitted (.notebookFileNameChanged ""),
                 Effect.emitted .notebookClosed,
                 Effect.getOpenFileName,
                 Effect.read "b.nbk",
                 Effect.criticalOpen "b.nbk" "open(): No such file"] }) ∧
    (openNotebook (Env.answers .Discard "" "b.nbk" true (.error "No such file"))
        Run.saved).2.win ≠ Run.saved.win := by
  refine ⟨rfl, by decide, by decide⟩

/-- Logging an effect leaves the window state alone. -/
theorem record_win (e : Effect) (r : Run) : (record e r).win = r.win := rfl

/-- Logging an effect appends it to the log. -/
theorem record_log (e : Effect) (r : Run) : (record e r).log = r.log ++ [e] := rfl

/-- When `closeNotebook()` returns true on an open notebook, the notebook is gone and the
file name is empty. -/
theorem closeNotebook_closed (env : Env) (r : Run) (nb : Notebook)
    (hopen : r.win.mNotebook = some nb) (hclose : (closeNotebook env r).1 = true) :
    (closeNotebook env r).2.win.mNotebook = none ∧
    (closeNotebook env r).2.win.mNotebookFileName = "" := by
  have hio : isNotebookOpen r = true := by simp [isNotebookOpen, hopen]
  cases ha : env.saveQueryAnswer with
  | Save =>
    cases hs : (saveNotebook env (record Effect.saveQuery r)).1 with
    | false => simp [closeNotebook, hio, ha, hs] at hclose
    | true =>
      simp [closeNotebook, hio, ha, hs, discardCase, destroyNotebook, setNotebookFileName,
        emit, record_win]
  | Discard =>
    simp [closeNotebook, hio, ha, discardCase, destroyNotebook, setNotebookFileName, emit,
      record]
  | Cancel => simp [closeNotebook, hio, ha] at hclose

/-- C7 as amended: with a notebook open, if the close step lets the open proceed, a file
is picked and it cannot be opened or read, then `openNotebook()` returns false and installs
no notebook; the window is left as the close step left it: no notebook open, file name empty,
and after Discard the modified flag it had before. -/
theorem openNotebook_read_failure (r : Run) (nb : Notebook) (env : Env) (msg : String)
    (hopen : r.win.mNotebook = some nb)
    (hclose : (closeNotebook env r).1 = true)
    (hpick : env.openFileName ≠ "")
    (hread : env.readFile env.openFileName = .error msg) :
    (openNotebook env r).1 = false ∧
    (openNotebook env r).2.win = (closeNotebook env r).2.win ∧
    (openNotebook env r).2.win.mNotebook = none ∧
    (openNotebook env r).2.win.mNotebookFileName = "" ∧
    (env.saveQueryAnswer = .Discard →
      (openNotebook env r).2.win.windowModified = r.win.windowModified) := by
  have hio : isNotebookOpen r = true := by simp [isNotebookOpen, hopen]
  have hfst : (openNotebook env r).1 = false := by
    simp [openNotebook, hio, hclose, isEmpty, hpick, hread]
  have hwin : (openNotebook env r).2.win = (closeNotebook env r).2.win := by
    simp [openNotebook, hio, hclose, isEmpty, hpick, hread, record]
  have hc := closeNotebook_closed env r nb hopen hclose
  refine ⟨hfst, hwin, ?_, ?_, ?_⟩
  · rw [hwin]; exact hc.1
  · rw [hwin]; exact hc.2
  · intro ha
    rw [hwin]
    simp [closeNotebook, hio, ha, discardCase, destroyNotebook, setNotebookFileName, emit,
      record]

/-- C7 as amended, at a saved notebook, answer Discard and an unreadable `b.nbk`. -/
theorem openNotebook_read_failure_witness :
    (openNotebook (Env.answers .Discard "" "b.nbk" true (.error "No such file")) Run.saved).1 =
      false ∧
    (openNotebook (Env.answers .Discard "" "b.nbk" true (.error "No such file"))
      Run.saved).2.win.mNotebook = none :=
  have h := openNotebook_read_failure Run.saved ⟨[⟨"A", "a"⟩]⟩
    (Env.answers .Discard "" "b.nbk" true (.error "No such file")) "No such file"
    rfl (by decide) (by decide) rfl
  ⟨h.1, h.2.2.1⟩


/-- C8, the code at the failing input: right after the constructor (an empty, untitled
notebook whose modified flag is true) the user opens `b.nbk`, answering Discard to the close
prompt; the file is read successfully. `openNotebook()` returns true with the notebook of the
file bound to `b.nbk`, and the modified flag is still true. -/
theorem openNotebook_keeps_modified_flag :
    (newNotebook (Env.answers .Cancel "" "" true (.error "")) constructed).win =
      ⟨some ⟨[]⟩, "", true⟩ ∧
    (openNotebook (Env.answers .Discard "" "b.nbk" true (.ok ⟨[⟨"B", "b"⟩]⟩))
        (newNotebook (Env.answers .Cancel "" "" true (.error "")) constructed)).1 = true ∧
    (openNotebook (Env.answers .Discard "" "b.nbk" true (.ok ⟨[⟨"B", "b"⟩]⟩))
        (newNotebook (Env.answers .Cancel "" "" true (.error "")) constructed)).2.win =
      ⟨some ⟨[⟨"B", "b"⟩]⟩, "b.nbk", true⟩ := by
  refine ⟨by decide, by decide, by decide⟩

/-- C9: with a notebook open, if the user answers Cancel to the close prompt, or answers
Save while no file name is bound and then cancels the Save-As picker, `closeNotebook()`
returns false and leaves notebook, file name and modified flag as they were; `newNotebook()`
in the same situation leaves the whole window state unchanged as well. -/
theorem closeNotebook_aborted_unchanged (r : Run) (nb : Notebook) (env : Env)
    (hopen : r.win.mNotebook = some nb)
    (habort : env.saveQueryAnswer = .Cancel ∨
      (env.saveQueryAnswer = .Save ∧ r.win.mNotebookFileName = "" ∧ env.saveFileName = "")) :
    (closeNotebook env r).1 = false ∧
    (closeNotebook env r).2.win = r.win ∧
    (newNotebook env r).win = r.win := by
  have hio : isNotebookOpen r = true := by simp [isNotebookOpen, hopen]
  have hio2 : isNotebookOpen (record Effect.saveQuery r) = true := by
    simp [isNotebookOpen, record_win, hopen]
  rcases habort with ha | ⟨ha, hf, hs⟩
  · simp [newNotebook, closeNotebook, hio, ha, record_win]
  · have hsave : saveNotebook env (record Effect.saveQuery r) =
        (false, record Effect.getSaveFileName (record Effect.saveQuery r)) := by
      simp [saveNotebook, saveNotebookAs, hio2, record_win, hf, hs, isEmpty]
    simp [newNotebook, closeNotebook, hio, ha, hsave, record_win]

/-- C9 on an untitled notebook: answer Save, then cancel the picker. -/
theorem closeNotebook_aborted_unchanged_witness :
    (closeNotebook (Env.answers .Save "" "" true (.error "")) Run.untitled).1 = false ∧
    (closeNotebook (Env.answers .Save "" "" true (.error "")) Run.untitled).2.win =
      Run.untitled.win ∧
    (newNotebook (Env.answers .Save "" "" true (.error "")) Run.untitled).win =
      Run.untitled.win :=
  closeNotebook_aborted_unchanged Run.untitled ⟨[⟨"A", "a"⟩]⟩
    (Env.answers .Save "" "" true (.error "")) rfl (Or.inr ⟨rfl, rfl, rfl⟩)

/-- C10 fails as stated: on a notebook whose modified flag is false the prompt is shown
all the same, and the outcome depends on the answer: with Cancel `closeNotebook()` returns
false and the notebook stays open, with Discard it returns true. -/
theorem closeNotebook_clean_still_prompts :
    Run.saved.win.windowModified = false ∧
    closeNotebook (Env.answers .Cancel "" "" true (.error "")) Run.saved =
      (false, { win := Run.saved.win, log := [Effect.saveQuery] }) ∧
    (closeNotebook (Env.answers .Discard "" "" true (.error "")) Run.saved).1 = true := by
  refine ⟨rfl, by decide, by decide⟩

/-- A call of `saveNotebook()` only appends to the log. -/
theorem saveNotebook_log_extends (env : Env) (r : Run) :
    ∃ rest, (saveNotebook env r).2.log = r.log ++ rest := by
  obtain ⟨⟨nbo, fn, m⟩, log⟩ := r
  cases nbo with
  | none => simp [saveNotebook, isNotebookOpen, record]
  | some nb =>
    by_cases hf : fn = "" <;> by_cases hs : env.saveFileName = "" <;> cases hc : env.commit <;>
      simp [saveNotebook, saveNotebookAs, isNotebookOpen, record, isEmpty, hf, hs, hc,
        saveNotebookToFile, setNotebookFileName, emit, setWindowModified]

/-- C10 as amended: whenever a notebook is open, dirty or not, `closeNotebook()` shows
the prompt; on Discard it destroys the notebook, clears the file name and returns true; on
Cancel it returns false and changes nothing. -/
theorem closeNotebook_prompts_when_open (r : Run) (nb : Notebook) (env : Env)
    (hopen : r.win.mNotebook = some nb) :
    (∃ rest, (closeNotebook env r).2.log = r.log ++ Effect.saveQuery :: rest) ∧
    (env.saveQueryAnswer = .Discard →
      (closeNotebook env r).1 = true ∧
      (closeNotebook env r).2.win = ⟨none, "", r.win.windowModified⟩) ∧
    (env.saveQueryAnswer = .Cancel →
      (closeNotebook env r).1 = false ∧ (closeNotebook env r).2.win = r.win) := by
  have hio : isNotebookOpen r = true := by simp [isNotebookOpen, hopen]
  refine ⟨?_, ?_, ?_⟩
  · cases ha : env.saveQueryAnswer with
    | Save =>
      obtain ⟨rest, hrest⟩ := saveNotebook_log_extends env (record Effect.saveQuery r)
      have hrest2 : (saveNotebook env (record Effect.saveQuery r)).2.log =
          r.log ++ Effect.saveQuery :: rest := by
        rw [hrest]; simp [record]
      cases hs : (saveNotebook env (record Effect.saveQuery r)).1 with
      | false =>
        refine ⟨rest, ?_⟩
        simp only [closeNotebook, hio, ha, hs]
        simpa using hrest2
      | true =>
        refine ⟨rest ++ [Effect.emitted (Signal.notebookFileNameChanged ""),
          Effect.emitted Signal.notebookClosed], ?_⟩
        simp only [closeNotebook, hio, ha, hs]
        simp [discardCase, destroyNotebook, setNotebookFileName, emit, record_log, hrest2]
    | Discard =>
      simp [closeNotebook, hio, ha, discardCase, destroyNotebook, setNotebookFileName, emit,
        record]
    | Cancel => simp [closeNotebook, hio, ha, record]
  · intro ha
    simp [closeNotebook, hio, ha, discardCase, destroyNotebook, setNotebookFileName, emit,
      record_win]
  · intro ha
    simp [closeNotebook, hio, ha, record_win]

/-- C10 as amended, at a saved (unmodified) notebook and the answer Cancel. -/
theorem closeNotebook_prompts_when_open_witness :
    (∃ rest, (closeNotebook (Env.answers .Cancel "" "" true (.error "")) Run.saved).2.log =
      Run.saved.log ++ Effect.saveQuery :: rest) ∧
    (closeNotebook (Env.answers .Cancel "" "" true (.error "")) Run.saved).1 = false :=
  have h := closeNotebook_prompts_when_open Run.saved ⟨[⟨"A", "a"⟩]⟩
    (Env.answers .Cancel "" "" true (.error "")) rfl
  ⟨h.1, (h.2.2 rfl).1⟩


/-- The close step lets the caller proceed exactly when no notebook was open, or the
user chose Discard, or chose Save and `saveNotebook()` returned true. -/
theorem closeNotebook_passes_iff (r : Run) (env : Env) :
    (closeNotebook env r).1 = true ↔
      (r.win.mNotebook = none ∨ env.saveQueryAnswer = .Discard ∨
        (env.saveQueryAnswer = .Save ∧
          (saveNotebook env (record Effect.saveQuery r)).1 = true)) := by
  cases hnb : r.win.mNotebook with
  | none => simp [closeNotebook, isNotebookOpen, hnb]
  | some nb =>
    cases ha : env.saveQueryAnswer with
    | Save =>
      cases hs : (saveNotebook env (record Effect.saveQuery r)).1 <;>
        simp [closeNotebook, isNotebookOpen, hnb, ha, hs]
    | Discard => simp [closeNotebook, isNotebookOpen, hnb, ha]
    | Cancel => simp [closeNotebook, isNotebookOpen, hnb, ha]

/-- C12: the close step of `newNotebook()` does not abort exactly when no notebook was
open, or the user chose Discard, or chose Save and the save returned true; and whenever it
does not abort, afterwards a notebook is open, it holds zero notes, the file name is empty
and the modified flag is true. -/
theorem newNotebook_fresh (r : Run) (env : Env) :
    ((closeNotebook env r).1 = true ↔
      (r.win.mNotebook = none ∨ env.saveQueryAnswer = .Discard ∨
        (env.saveQueryAnswer = .Save ∧
          (saveNotebook env (record Effect.saveQuery r)).1 = true))) ∧
    ((closeNotebook env r).1 = true →
      (newNotebook env r).win = ⟨some ⟨[]⟩, "", true⟩) := by
  refine ⟨closeNotebook_passes_iff r env, ?_⟩
  intro h
  simp [newNotebook, h, createNotebook, setNotebook, setNotebookFileName, emit,
    setWindowModified, record_win]

/-- C12 on a saved notebook with the answer Discard. -/
theorem newNotebook_fresh_witness :
    (newNotebook (Env.answers .Discard "" "" true (.error "")) Run.saved).win =
      ⟨some ⟨[]⟩, "", true⟩ :=
  (newNotebook_fresh Run.saved (Env.answers .Discard "" "" true (.error ""))).2 (by decide)


/-- Folding string concatenation from `acc` gives `acc` followed by the join. -/
theorem foldl_append_eq_join (l : List String) :
    ∀ acc : String, l.foldl (fun r s => r ++ s) acc = acc ++ String.join l := by
  induction l with
  | nil => intro acc; simp [String.join]
  | cons x xs ih =>
    intro acc
    have hj : String.join (x :: xs) = ("" ++ x) ++ String.join xs := by
      show List.foldl (fun r s => r ++ s) "" (x :: xs) = _
      rw [List.foldl_cons, ih]
    rw [List.foldl_cons, ih, hj]
    simp [String.append_assoc]

/-- The join of a non-empty list of strings. -/
theorem join_cons (x : String) (xs : List String) :
    String.join (x :: xs) = x ++ String.join xs := by
  rw [String.join, List.foldl_cons, foldl_append_eq_join]
  simp

/-- One pass of the export loop on a row inside the notebook appends the four lines
of that row. -/
theorem exportStep_eq (nb : Notebook) (ns k : Nat) (acc : String) (x : Note)
    (hx : nb.notes[k]? = some x) :
    exportStep nb ns acc k = some (acc ++ exportBlock ns (k, x)) := by
  have hlt : k < nb.notes.length := by
    by_contra h
    rw [List.getElem?_eq_none (by omega)] at hx
    exact absurd hx (by simp)
  have hget : nb.get? (k : Int) = some x := by
    simp [Notebook.get?, Notebook.size, hlt, hx]
  have e1 : ("+++ " : String) = "+++" ++ " " := by decide
  have e2 : (" +++" : String) = " " ++ "+++" := by decide
  have e3 : ("--- " : String) = "---" ++ " " := by decide
  have e4 : (" ---" : String) = " " ++ "---" := by decide
  simp only [exportStep, hget, exportBlock, delimiterLine, e1, e2, e3, e4, String.append_assoc]

/-- The export loop from row `k` on appends the four lines of each remaining row, in
order. -/
theorem exportLoop_eq (nb : Notebook) (ns : Nat) :
    ∀ (post : List Note) (k : Nat) (acc : String), nb.notes.drop k = post →
      (List.range' k post.length).foldlM (exportStep nb ns) acc =
        some (acc ++ String.join ((post.enumFrom k).map (exportBlock ns))) := by
  intro post
  induction post with
  | nil => intro k acc _; simp [String.join]
  | cons x xs ih =>
    intro k acc h
    have hx : nb.notes[k]? = some x := by
      have := List.getElem?_drop nb.notes k 0
      rw [h] at this
      simpa using this.symm
    have hxs : nb.notes.drop (k + 1) = xs := by
      have := congrArg List.tail h
      simpa [List.tail_drop] using this
    rw [List.length_cons, List.range'_succ, List.foldlM_cons, exportStep_eq nb ns k acc x hx]
    simp only [Option.bind_eq_bind, Option.some_bind]
    rw [ih (k + 1) _ hxs, List.enumFrom_cons, List.map_cons, join_cons, String.append_assoc]

/-- The export loop reads only rows of the notebook and produces the text of the spec. -/
theorem exportText_eq_spec (nb : Notebook) : exportText nb = some (exportSpec nb.notes) := by
  have h := exportLoop_eq nb nb.size nb.notes 0 "" (by simp)
  simp only [exportText, List.range_eq_range']
  rw [Notebook.size] at h ⊢
  rw [h]
  simp [exportSpec, List.enum]


/-- C13: for a notebook of `N` notes the export loop produces exactly the text of the
spec (`exportSpec`: for `i = 1..N` in notebook order the lines `+++ i/N +++`,
`Title: <title>`, `Content: <text>`, `--- i/N ---`, each ended by a newline); for `N = 0`
the text is empty; and with a file name picked, `on_actionSave_As_Text_triggered` writes just
that text to the picked file and leaves the session untouched. -/
theorem export_text_format (r : Run) (nb : Notebook) (env : Env)
    (hopen : r.win.mNotebook = some nb) (hpick : env.saveFileName ≠ "") :
    exportText nb = some (exportSpec nb.notes) ∧
    (nb.notes = [] → exportText nb = some "") ∧
    on_actionSave_As_Text_triggered env r =
      some (if env.commit = true then
              record (.writeText env.saveFileName (exportSpec nb.notes) true)
                (record .getSaveTextFileName r)
            else
              record (.criticalWrite env.saveFileName "Unable to commit the save")
                (record (.writeText env.saveFileName (exportSpec nb.notes) false)
                  (record .getSaveTextFileName r))) := by
  have h := exportText_eq_spec nb
  refine ⟨h, ?_, ?_⟩
  · intro hn
    rw [h, hn]
    rfl
  · cases hc : env.commit <;>
      simp [on_actionSave_As_Text_triggered, isEmpty, hpick, record_win, hopen, h, hc]

/-- C13 on the notebook `[(A, a), (B, b)]`: the eight lines, written out. -/
theorem export_text_format_witness :
    exportText ⟨[⟨"A", "a"⟩, ⟨"B", "b"⟩]⟩ =
      some ("+++ 1/2 +++\nTitle: A\nContent: a\n--- 1/2 ---\n" ++
            "+++ 2/2 +++\nTitle: B\nContent: b\n--- 2/2 ---\n") :=
  (export_text_format
      { win := ⟨some ⟨[⟨"A", "a"⟩, ⟨"B", "b"⟩]⟩, "", true⟩, log := [] }
      ⟨[⟨"A", "a"⟩, ⟨"B", "b"⟩]⟩
      (Env.answers .Cancel "notes.txt" "" true (.error "")) rfl (by decide)).1.trans (by decide)


/-- The call `saveNotebook()` keeps: no notebook open implies empty file name. -/
theorem saveNotebook_unbound_closed (env : Env) (r : Run)
    (h : r.win.mNotebook = none → r.win.mNotebookFileName = "") :
    (saveNotebook env r).2.win.mNotebook = none →
      (saveNotebook env r).2.win.mNotebookFileName = "" := by
  obtain ⟨⟨nbo, fn, m⟩, log⟩ := r
  cases nbo with
  | none => simpa [saveNotebook, isNotebookOpen, record] using h
  | some nb =>
    by_cases hf : fn = "" <;> by_cases hs : env.saveFileName = "" <;> cases hc : env.commit <;>
      simp [saveNotebook, saveNotebookAs, isNotebookOpen, record, isEmpty, hf, hs, hc,
        saveNotebookToFile, setNotebookFileName, emit, setWindowModified]

/-- The call `saveNotebookAs()` keeps: no notebook open implies empty file name. -/
theorem saveNotebookAs_unbound_closed (env : Env) (r : Run)
    (h : r.win.mNotebook = none → r.win.mNotebookFileName = "") :
    (saveNotebookAs env r).2.win.mNotebook = none →
      (saveNotebookAs env r).2.win.mNotebookFileName = "" := by
  obtain ⟨⟨nbo, fn, m⟩, log⟩ := r
  cases nbo with
  | none => simpa [saveNotebookAs, isNotebookOpen, record] using h
  | some nb =>
    by_cases hs : env.saveFileName = "" <;> cases hc : env.commit <;>
      simp [saveNotebookAs, isNotebookOpen, record, isEmpty, hs, hc,
        saveNotebookToFile, setNotebookFileName, emit, setWindowModified]

/-- The call `closeNotebook()` keeps: no notebook open implies empty file name. -/
theorem closeNotebook_unbound_closed (env : Env) (r : Run)
    (h : r.win.mNotebook = none → r.win.mNotebookFileName = "") :
    (closeNotebook env r).2.win.mNotebook = none →
      (closeNotebook env r).2.win.mNotebookFileName = "" := by
  cases hnb : r.win.mNotebook with
  | none =>
    have hio : isNotebookOpen r = false := by simp [isNotebookOpen, hnb]
    simpa [closeNotebook, hio] using fun _ => h hnb
  | some nb =>
    by_cases hc : (closeNotebook env r).1 = true
    · intro _
      exact (closeNotebook_closed env r nb hnb hc).2
    · have hio : isNotebookOpen r = true := by simp [isNotebookOpen, hnb]
      cases ha : env.saveQueryAnswer with
      | Save =>
        cases hs : (saveNotebook env (record Effect.saveQuery r)).1 with
        | false =>
          have hinv := saveNotebook_unbound_closed env (record Effect.saveQuery r)
            (by simp [record_win, hnb])
          simpa [closeNotebook, hio, ha, hs] using hinv
        | true => simp [closeNotebook, hio, ha, hs] at hc
      | Discard => simp [closeNotebook, hio, ha] at hc
      | Cancel => simp [closeNotebook, hio, ha, record_win, hnb]

/-- Every command of the File menu keeps: no notebook open implies empty file name. -/
theorem step_unbound_closed (c : Command) (env : Env) (r : Run)
    (h : r.win.mNotebook = none → r.win.mNotebookFileName = "") :
    (step c env r).win.mNotebook = none → (step c env r).win.mNotebookFileName = "" := by
  cases c with
  | new =>
    have hc := closeNotebook_unbound_closed env r h
    cases hp : (closeNotebook env r).1 with
    | false => simpa [step, newNotebook, hp] using hc
    | true =>
      simp [step, newNotebook, hp, createNotebook, setNotebook, setNotebookFileName, emit,
        setWindowModified, record_win]
  | openFile =>
    have hc : (if isNotebookOpen r = true then closeNotebook env r else (true, r)).2.win.mNotebook
        = none →
        (if isNotebookOpen r = true then closeNotebook env r else (true, r)).2.win.mNotebookFileName
        = "" := by
      by_cases hio : isNotebookOpen r = true
      · simpa [hio] using closeNotebook_unbound_closed env r h
      · simpa [hio] using h
    simp only [step, openNotebook]
    generalize (if isNotebookOpen r = true then closeNotebook env r else (true, r)) = p at hc ⊢
    obtain ⟨b, q⟩ := p
    cases b with
    | false => simpa using hc
    | true =>
      by_cases hf : env.openFileName = ""
      · simpa [isEmpty, hf, record_win] using hc
      · cases hr : env.readFile env.openFileName with
        | error msg => simpa [isEmpty, hf, hr, record_win] using hc
        | ok nb =>
          simp [isEmpty, hf, hr, setNotebook, setNotebookFileName, emit, record_win]
  | save => exact saveNotebook_unbound_closed env r h
  | saveAs => exact saveNotebookAs_unbound_closed env r h
  | close => exact closeNotebook_unbound_closed env r h
  | exitSave =>
    have hs := saveNotebook_unbound_closed env (record Effect.exitDlg r)
      (by simpa [record_win] using h)
    cases hnb : r.win.mNotebook with
    | none =>
      have hio : isNotebookOpen r = false := by simp [isNotebookOpen, hnb]
      simpa [step, on_actionExit_triggered, hio, record_win] using fun _ => h hnb
    | some nb =>
      have hio : isNotebookOpen r = true := by simp [isNotebookOpen, hnb]
      cases ha : env.exitAnswer with
      | Save => simpa [step, on_actionExit_triggered, hio, ha, record_win] using hs
      | Discard => simp [step, on_actionExit_triggered, hio, ha, record_win, hnb]


/-- Every sequence of commands keeps: no notebook open implies empty file name. -/
theorem runCommands_unbound_closed :
    ∀ (cmds : List (Command × Env)) (r : Run),
      (r.win.mNotebook = none → r.win.mNotebookFileName = "") →
      (runCommands cmds r).win.mNotebook = none →
        (runCommands cmds r).win.mNotebookFileName = "" := by
  intro cmds
  induction cmds with
  | nil => intro r h; simpa [runCommands] using h
  | cons ce rest ih =>
    intro r h
    obtain ⟨c, env⟩ := ce
    simpa [runCommands] using ih (step c env r) (step_unbound_closed c env r h)

/-- C14: in every state reached from the initial main-window state by any sequence of
New, Open, Save, Save-As, Close and Exit steps, with any answers of the user and any I/O
outcomes, if no notebook is open then the file name is empty; equivalently, a non-empty file
name implies that a notebook is open. -/
theorem reachable_closed_unbound (cmds : List (Command × Env)) :
    ((runCommands cmds initial).win.mNotebook = none →
      (runCommands cmds initial).win.mNotebookFileName = "") ∧
    ((runCommands cmds initial).win.mNotebookFileName ≠ "" →
      (runCommands cmds initial).win.mNotebook.isSome = true) := by
  have h := runCommands_unbound_closed cmds initial (by decide)
  refine ⟨h, ?_⟩
  intro hne
  cases hnb : (runCommands cmds initial).win.mNotebook with
  | none => exact absurd (h hnb) hne
  | some nb => rfl

/-- C14 after a Save-As to `n.nbk` followed by a Close answered Discard: no notebook is
open and the file name is empty again. -/
theorem reachable_closed_unbound_witness :
    (runCommands
        [(Command.saveAs, Env.answers .Cancel "n.nbk" "" true (.error "")),
         (Command.close, Env.answers .Discard "" "" true (.error ""))]
        initial).win.mNotebook = none ∧
    (runCommands
        [(Command.saveAs, Env.answers .Cancel "n.nbk" "" true (.error "")),
         (Command.close, Env.answers .Discard "" "" true (.error ""))]
        initial).win.mNotebookFileName = "" :=
  ⟨by decide,
   (reachable_closed_unbound
      [(Command.saveAs, Env.answers .Cancel "n.nbk" "" true (.error "")),
       (Command.close, Env.answers .Discard "" "" true (.error ""))]).1 (by decide)⟩


/-- C11, the code at the failing input: right after a successful Save-As to `n.nbk` the
modified flag is false; an accepted New-note appends the note of the dialog as the last row,
an accepted Edit-note replaces row 0, a confirmed Delete-notes erases row 0, and after each
of the three the modified flag is still false. -/
theorem note_commands_leave_flag_clear :
    (saveNotebookAs (Env.answers .Cancel "n.nbk" "" true (.error "")) Run.untitled).2.win =
      ⟨some ⟨[⟨"A", "a"⟩]⟩, "n.nbk", false⟩ ∧
    (newNote [.typeTitle "T", .typeText "x", .pressOk]
        (saveNotebookAs (Env.answers .Cancel "n.nbk" "" true (.error "")) Run.untitled).2).1 =
      true ∧
    (newNote [.typeTitle "T", .typeText "x", .pressOk]
        (saveNotebookAs (Env.answers .Cancel "n.nbk" "" true (.error "")) Run.untitled).2).2.win =
      ⟨some ⟨[⟨"A", "a"⟩, ⟨"T", "x"⟩]⟩, "n.nbk", false⟩ ∧
    (on_notesView_activated [0] 0 [.typeText "x", .pressOk]
        (saveNotebookAs (Env.answers .Cancel "n.nbk" "" true (.error ""))
          Run.untitled).2).map Run.win =
      some ⟨some ⟨[⟨"A", "x"⟩]⟩, "n.nbk", false⟩ ∧
    (deleteNotes .Yes [0]
        (saveNotebookAs (Env.answers .Cancel "n.nbk" "" true (.error ""))
          Run.untitled).2).map Run.win =
      some ⟨some ⟨[]⟩, "n.nbk", false⟩ := by
  refine ⟨by decide, by decide, by decide, by decide, by decide⟩

end Toynote
